import Mathlib

/-!
Verification of the vitals-simulation and severity-classification core of
the `vitalnetai` dashboard (`src/App.jsx`), as a shallow embedding.

JavaScript numbers are modelled by `ℚ` (all arithmetic in the simulator is
exact on rationals); `Math.round` is `jsRound` (round half towards +∞, the
JS semantics); `Math.random()` draws are passed explicitly as rationals in
`[0,1)`; timestamps are opaque strings passed in explicitly.  Optional JS
fields (`p.vitals`, `p.history` may be `undefined`) are `Option`s.
-/

namespace VitalNet

/-- JS `Math.round`: round half away from zero towards +∞, i.e. `⌊x + 1/2⌋`. -/
def jsRound (q : ℚ) : ℤ := ⌊q + 1/2⌋

/-- `severityScore` from `App.jsx` lines 34–39: severity by SpO₂ (higher = worse).
`spo2 >= 95 → 0` (stable), `>= 90 → 1` (warning), `>= 85 → 2` (serious), else `3`. -/
def severityScore (spo2 : ℚ) : ℕ :=
  if 95 ≤ spo2 then 0
  else if 90 ≤ spo2 then 1
  else if 85 ≤ spo2 then 2
  else 3

/-- A vitals reading: `{time, spo2, hr, bp}`.  `spo2` is a rational (the seed
phase produces non-integral values); `hr` and `bp` are always produced by
`Math.round`/integer arithmetic, hence `ℤ`. -/
structure Reading where
  time : String
  spo2 : ℚ
  hr : ℤ
  bp : ℤ
deriving DecidableEq

/-- A patient record as built in `App.jsx`.  `history` and `vitals` are
`Option`s because `simulateVitalsUpdate` guards them (`p.history || []`,
`p.vitals?.spo2 ?? 97`), i.e. the code tolerates their absence. -/
structure Patient where
  id : String
  name : String
  age : ℤ
  ward : String
  notes : String
  history : Option (List Reading)
  vitals : Option Reading
  avatarColor : String
deriving DecidableEq

/-- One seed reading (`App.jsx` lines 47–53), for random draws
`r1, r2, r3 ∈ [0,1)`:
`spo2 = Math.max(80, Math.min(100, base + (r1*4 - 2)))` (note: not rounded),
`hr = Math.round(65 + r2*20)`, `bp = 110 + Math.round(r3*30)`. -/
def seedReading (base : ℤ) (t : String) (r1 r2 r3 : ℚ) : Reading :=
  { time := t
    spo2 := max 80 (min 100 ((base : ℚ) + (r1 * 4 - 2)))
    hr := jsRound (65 + r2 * 20)
    bp := 110 + jsRound (r3 * 30) }

/-- Seed patient `i` (`App.jsx` lines 42–64): `base = 95 - (i % 4)`, 8 history
readings, `vitals = history[history.length - 1]`, id `PT-(1000+i)`.
`rand idx` supplies the three `Math.random()` draws of history entry `idx`,
`times idx` its formatted timestamp. -/
def seedPatient (i : ℕ) (rand : ℕ → ℚ × ℚ × ℚ) (times : ℕ → String) : Patient :=
  let base : ℤ := 95 - (i % 4 : ℕ)
  let history : List Reading :=
    (List.range 8).map fun idx =>
      seedReading base (times idx) (rand idx).1 (rand idx).2.1 (rand idx).2.2
  { id := "PT-" ++ toString (1000 + i)
    name := "Patient " ++ toString (i + 1)
    age := 28 + ((i * 7) % 25 : ℕ)
    ward := "General"
    notes := ""
    history := some history
    vitals := history.getLast?
    avatarColor := ["bg-indigo-500", "bg-rose-500", "bg-emerald-500", "bg-sky-500"].getD (i % 4) "" }

/-- `makeInitialPatients` (`App.jsx` lines 42–64): the 10 seed patients. -/
def makeInitialPatients (rand : ℕ → ℕ → ℚ × ℚ × ℚ) (times : ℕ → ℕ → String) : List Patient :=
  (List.range 10).map fun i => seedPatient i (rand i) (times i)

/-- JS `x || d` on a possibly-absent number: `undefined` and `0` are falsy. -/
def jsOrDefault (x : Option ℤ) (d : ℤ) : ℤ :=
  match x with
  | none => d
  | some v => if v = 0 then d else v

/-- The SpO₂ delta of a tick (`App.jsx` line 100):
`Math.round((r - 0.65) * 4)` for a draw `r ∈ [0,1)`. -/
def deltaSpo2 (r : ℚ) : ℤ := jsRound ((r - 13/20) * 4)

/-- One patient's tick (`App.jsx` lines 96–113), for draws `r1, r2, r3 ∈ [0,1)`
and fresh timestamp `t`:
random walk from `p.vitals?.spo2 ?? 97` by `deltaSpo2 r1`, clamped to
`[60,100]`; `hr` walk from `p.vitals?.hr || 70`, clamped to `[45,140]`;
`bp` walk from `p.vitals?.bp || 120`, clamped to `[80,200]`; the new point is
appended to `p.history || []` and the history trimmed to the last 16
(`.slice(-16)`, modelled as dropping `length - 16` from the front). -/
def tickPatient (p : Patient) (r1 r2 r3 : ℚ) (t : String) : Patient :=
  let prevSpo2 : ℚ := (p.vitals.map Reading.spo2).getD 97
  let nextSpo2 : ℚ := max 60 (min 100 (prevSpo2 + (deltaSpo2 r1 : ℚ)))
  let nextHr : ℤ :=
    max 45 (min 140 (jsRound ((jsOrDefault (p.vitals.map Reading.hr) 70 : ℚ) + (r2 * 6 - 3))))
  let nextBp : ℤ :=
    max 80 (min 200 (jsRound ((jsOrDefault (p.vitals.map Reading.bp) 120 : ℚ) + (r3 * 6 - 3))))
  let newPoint : Reading := { time := t, spo2 := nextSpo2, hr := nextHr, bp := nextBp }
  let appended : List Reading := p.history.getD [] ++ [newPoint]
  { p with vitals := some newPoint, history := some (appended.drop (appended.length - 16)) }

/-- `simulateVitalsUpdate` (`App.jsx` lines 96–114): map `tickPatient` over the
collection; `rand i` supplies patient `i`'s three draws. -/
def simulateVitalsAux (rand : ℕ → ℚ × ℚ × ℚ) (t : String) : ℕ → List Patient → List Patient
  | _, [] => []
  | i, p :: ps =>
      tickPatient p (rand i).1 (rand i).2.1 (rand i).2.2 t :: simulateVitalsAux rand t (i + 1) ps

def simulateVitalsUpdate (prev : List Patient) (rand : ℕ → ℚ × ℚ × ℚ) (t : String) : List Patient :=
  simulateVitalsAux rand t 0 prev

/-- `a.id.localeCompare(b.id)` of the sort comparator, modelled as the
lexicographic three-way comparison of the strings (the ids are plain ASCII
`PT-<number>` strings, where locale comparison agrees with code-unit order). -/
def localeCmp (s t : String) : ℤ :=
  if s < t then -1 else if t < s then 1 else 0

/-- The SpO₂ the sort comparator reads (`b.vitals.spo2`).  The comparator is
only ever applied to the output of `simulateVitalsUpdate`, where `vitals` is
always present (on an absent record the JS code would throw); absent vitals
are mapped to the harmless placeholder 0. -/
def currentSpo2 (p : Patient) : ℚ :=
  (p.vitals.map Reading.spo2).getD 0

/-- The sort comparator of the auto-play effect (`App.jsx` lines 127, 134):
`severityScore(b.vitals.spo2) - severityScore(a.vitals.spo2) || a.id.localeCompare(b.id)`
(JS `x || y` falls through to `y` exactly when `x = 0`). -/
def patientCmp (a b : Patient) : ℤ :=
  if (severityScore (currentSpo2 b) : ℤ) - (severityScore (currentSpo2 a) : ℤ) = 0
  then localeCmp a.id b.id
  else (severityScore (currentSpo2 b) : ℤ) - (severityScore (currentSpo2 a) : ℤ)

/-- `a` sorts no later than `b` under the comparator. -/
def patientLe (a b : Patient) : Prop := patientCmp a b ≤ 0

instance : DecidableRel patientLe :=
  fun a b => inferInstanceAs (Decidable (patientCmp a b ≤ 0))

/-- A tick as performed by the auto-play effect: simulate, then sort by the
comparator (`updated.sort(...)`, `App.jsx` lines 124–136). -/
def tickAndSort (prev : List Patient) (rand : ℕ → ℚ × ℚ × ℚ) (t : String) : List Patient :=
  List.insertionSort patientLe (simulateVitalsUpdate prev rand t)

/-- A per-patient persisted metadata object `{notes, ward}` (external
interface of the key-value store).  Fields are optional: the JS spread
`{...p, ...meta[p.id]}` overrides exactly the keys present. -/
structure MetaPatch where
  notes : Option String
  ward : Option String
deriving DecidableEq

/-- The JS spread `{...p, ...m}` for a metadata object `m`: the fields present
in `m` override `p`'s, everything else is kept. -/
def applyPatch (p : Patient) (m : MetaPatch) : Patient :=
  { p with notes := m.notes.getD p.notes, ward := m.ward.getD p.ward }

/-- Startup hydration (`App.jsx` line 75):
`seeded.map((p) => ({ ...p, ...meta[p.id] }))`; a missing key (`undefined`
spread) leaves the seed patient unchanged. -/
def hydrate (seeded : List Patient) (meta : String → Option MetaPatch) : List Patient :=
  seeded.map fun p =>
    match meta p.id with
    | none => p
    | some m => applyPatch p m

/-- A successfully parsed per-id value of arbitrary shape, as the spread
`{...p, ...meta[p.id]}` at `App.jsx` line 75 sees it: any subset of the
patient's own fields may be present and is then copied over the seed value
(a non-conforming object such as `{"age": 1}` overrides `age`; keys that are
not patient fields are invisible on the typed record). -/
structure JsObjPatch where
  id : Option String := none
  name : Option String := none
  age : Option ℤ := none
  ward : Option String := none
  notes : Option String := none
  history : Option (Option (List Reading)) := none
  vitals : Option (Option Reading) := none
  avatarColor : Option String := none
deriving DecidableEq

/-- The JS spread `{...p, ...j}` for an arbitrary parsed object `j`: every
key present in `j` overrides the corresponding field of `p`. -/
def applyJsPatch (p : Patient) (j : JsObjPatch) : Patient :=
  { id := j.id.getD p.id
    name := j.name.getD p.name
    age := j.age.getD p.age
    ward := j.ward.getD p.ward
    notes := j.notes.getD p.notes
    history := j.history.getD p.history
    vitals := j.vitals.getD p.vitals
    avatarColor := j.avatarColor.getD p.avatarColor }

/-- Startup hydration against an arbitrary successfully parsed value
(`App.jsx` line 75): `meta pid = none` models `meta[pid] = undefined` (the
parsed value is not an object, or has no key `pid`; spreading `undefined` is
a no-op), `some j` an object value of arbitrary shape. -/
def hydrateJs (seeded : List Patient) (meta : String → Option JsObjPatch) : List Patient :=
  seeded.map fun p =>
    match meta p.id with
    | none => p
    | some j => applyJsPatch p j

/-- The possible states of the persisted metadata value, as the startup code
(`App.jsx` lines 70–79) distinguishes them:
`absent` — `localStorage.getItem` returns `null`, so `null || "{}"` parses to
the empty object (every lookup `undefined`); `malformed` — `JSON.parse`
throws and the `catch` returns the bare seed; `parsed m` — any successfully
parsed value, conforming to the `{notes, ward}` interface shape or not,
presented as its per-id lookups. -/
inductive StoredMeta where
  | absent
  | malformed
  | parsed (m : String → Option JsObjPatch)

/-- The patient collection the `useState` initializer produces from the seed
and the stored metadata (`App.jsx` lines 70–79). -/
def startupPatients (seeded : List Patient) : StoredMeta → List Patient
  | .absent => hydrateJs seeded fun _ => none
  | .malformed => seeded
  | .parsed m => hydrateJs seeded m

/-- `updateMeta` (`App.jsx` lines 167–169):
`prev.map((p) => (p.id === id ? { ...p, ...patch } : p))`. -/
def updateMeta (ps : List Patient) (pid : String) (patch : MetaPatch) : List Patient :=
  ps.map fun p => if p.id = pid then applyPatch p patch else p

/-- The persist effect (`App.jsx` lines 143–146):
`Object.fromEntries(patients.map((p) => [p.id, {notes, ward}]))` as a lookup
function; with duplicate keys `Object.fromEntries` keeps the last entry. -/
def persistMeta (ps : List Patient) : String → Option MetaPatch :=
  fun pid => ((ps.filter fun p => p.id == pid).getLast?).map fun p => ⟨some p.notes, some p.ward⟩

end VitalNet

namespace VitalNet

/-- First part of `severityScore`'s characterisation: the result is one of 0–3
and each band is as in the code. -/
theorem severityScore_mem (s : ℚ) :
    severityScore s = 0 ∨ severityScore s = 1 ∨ severityScore s = 2 ∨ severityScore s = 3 := by
  unfold severityScore
  split_ifs <;> simp

end VitalNet

/-- C1: for every oxygen-saturation value `s`, `severityScore` returns exactly
one of {0,1,2,3}, with inclusive boundaries: `s ≥ 95 → 0`, `90 ≤ s ≤ 94 → 1`,
`85 ≤ s ≤ 89 → 2`, `s < 85 → 3`; in particular `95 → 0`, `94 → 1`, `90 → 1`,
`89 → 2`, `85 → 2`, `84 → 3`. -/
theorem C1_severity_classifier (s : ℤ) :
    (VitalNet.severityScore s = 0 ∨ VitalNet.severityScore s = 1 ∨
      VitalNet.severityScore s = 2 ∨ VitalNet.severityScore s = 3) ∧
    (95 ≤ s → VitalNet.severityScore s = 0) ∧
    (90 ≤ s ∧ s ≤ 94 → VitalNet.severityScore s = 1) ∧
    (85 ≤ s ∧ s ≤ 89 → VitalNet.severityScore s = 2) ∧
    (s < 85 → VitalNet.severityScore s = 3) ∧
    (VitalNet.severityScore 95 = 0 ∧ VitalNet.severityScore 94 = 1 ∧
      VitalNet.severityScore 90 = 1 ∧ VitalNet.severityScore 89 = 2 ∧
      VitalNet.severityScore 85 = 2 ∧ VitalNet.severityScore 84 = 3) := by
  have hmem := VitalNet.severityScore_mem (s : ℚ)
  refine ⟨hmem, ?_, ?_, ?_, ?_, ?_⟩
  · intro h
    have : (95 : ℚ) ≤ (s : ℚ) := by exact_mod_cast h
    simp [VitalNet.severityScore, this]
  · rintro ⟨h1, h2⟩
    have hc1 : (90 : ℚ) ≤ (s : ℚ) := by exact_mod_cast h1
    have hc2 : ¬ (95 : ℚ) ≤ (s : ℚ) := by
      rw [show (95 : ℚ) = ((95 : ℤ) : ℚ) by norm_num, Int.cast_le]
      omega
    simp [VitalNet.severityScore, hc1, hc2]
  · rintro ⟨h1, h2⟩
    have hc1 : (85 : ℚ) ≤ (s : ℚ) := by exact_mod_cast h1
    have hc2 : ¬ (95 : ℚ) ≤ (s : ℚ) := by
      rw [show (95 : ℚ) = ((95 : ℤ) : ℚ) by norm_num, Int.cast_le]
      omega
    have hc3 : ¬ (90 : ℚ) ≤ (s : ℚ) := by
      rw [show (90 : ℚ) = ((90 : ℤ) : ℚ) by norm_num, Int.cast_le]
      omega
    simp [VitalNet.severityScore, hc1, hc2, hc3]
  · intro h
    have hc2 : ¬ (95 : ℚ) ≤ (s : ℚ) := by
      rw [show (95 : ℚ) = ((95 : ℤ) : ℚ) by norm_num, Int.cast_le]
      omega
    have hc3 : ¬ (90 : ℚ) ≤ (s : ℚ) := by
      rw [show (90 : ℚ) = ((90 : ℤ) : ℚ) by norm_num, Int.cast_le]
      omega
    have hc4 : ¬ (85 : ℚ) ≤ (s : ℚ) := by
      rw [show (85 : ℚ) = ((85 : ℤ) : ℚ) by norm_num, Int.cast_le]
      omega
    simp [VitalNet.severityScore, hc2, hc3, hc4]
  · refine ⟨?_, ?_, ?_, ?_, ?_, ?_⟩ <;> decide

/-- C1 witness: the boundary instances, obtained from `C1_severity_classifier`. -/
theorem C1_severity_classifier_witness :
    VitalNet.severityScore ((95 : ℤ) : ℚ) = 0 ∧ VitalNet.severityScore ((94 : ℤ) : ℚ) = 1 := by
  exact ⟨(C1_severity_classifier 95).2.1 (by decide),
         (C1_severity_classifier 94).2.2.1 ⟨by decide, by decide⟩⟩

namespace VitalNet

/-- Clamping `max lo (min hi x)` lands in `[lo, hi]` whenever `lo ≤ hi`. -/
theorem clamp_bounds {α : Type} [LinearOrder α] (lo hi x : α) (h : lo ≤ hi) :
    lo ≤ max lo (min hi x) ∧ max lo (min hi x) ≤ hi :=
  ⟨le_max_left _ _, max_le h (min_le_left _ _)⟩

/-- The reading a tick stores in `vitals` (and appends to history). -/
theorem tickPatient_vitals_eq (p : Patient) (r1 r2 r3 : ℚ) (t : String) :
    (tickPatient p r1 r2 r3 t).vitals =
      some { time := t
             spo2 := max 60 (min 100 (((p.vitals.map Reading.spo2).getD 97) + (deltaSpo2 r1 : ℚ)))
             hr := max 45 (min 140 (jsRound ((jsOrDefault (p.vitals.map Reading.hr) 70 : ℚ) + (r2 * 6 - 3))))
             bp := max 80 (min 200 (jsRound ((jsOrDefault (p.vitals.map Reading.bp) 120 : ℚ) + (r3 * 6 - 3)))) } :=
  rfl

end VitalNet

/-- C2: for every patient and every tick (draws in `[0,1)`), the produced
reading satisfies `spo2 ∈ [60,100]`, `hr ∈ [45,140]`, `bp ∈ [80,200]`; the
clamps hold after every update, starting from any patient state whose previous
reading is within the clamps. -/
theorem C2_tick_clamps (p : VitalNet.Patient) (r1 r2 r3 : ℚ) (t : String)
    (hr1 : 0 ≤ r1 ∧ r1 < 1) (hr2 : 0 ≤ r2 ∧ r2 < 1) (hr3 : 0 ≤ r3 ∧ r3 < 1)
    (hprev : ∀ v, p.vitals = some v →
      60 ≤ v.spo2 ∧ v.spo2 ≤ 100 ∧ 45 ≤ v.hr ∧ v.hr ≤ 140 ∧ 80 ≤ v.bp ∧ v.bp ≤ 200) :
    ∃ np, (VitalNet.tickPatient p r1 r2 r3 t).vitals = some np ∧
      60 ≤ np.spo2 ∧ np.spo2 ≤ 100 ∧ 45 ≤ np.hr ∧ np.hr ≤ 140 ∧ 80 ≤ np.bp ∧ np.bp ≤ 200 := by
  refine ⟨_, VitalNet.tickPatient_vitals_eq p r1 r2 r3 t, ?_, ?_, ?_, ?_, ?_, ?_⟩
  · exact (VitalNet.clamp_bounds 60 100 _ (by norm_num)).1
  · exact (VitalNet.clamp_bounds 60 100 _ (by norm_num)).2
  · exact (VitalNet.clamp_bounds 45 140 _ (by norm_num)).1
  · exact (VitalNet.clamp_bounds 45 140 _ (by norm_num)).2
  · exact (VitalNet.clamp_bounds 80 200 _ (by norm_num)).1
  · exact (VitalNet.clamp_bounds 80 200 _ (by norm_num)).2

/-- C2 witness: the clamps at a concrete patient (no vitals yet) and draws 0. -/
theorem C2_tick_clamps_witness :
    ∃ np, (VitalNet.tickPatient
        ⟨"PT-1000", "Patient 1", 28, "General", "", none, none, "bg-indigo-500"⟩
        0 0 0 "12:00").vitals = some np ∧
      60 ≤ np.spo2 ∧ np.spo2 ≤ 100 ∧ 45 ≤ np.hr ∧ np.hr ≤ 140 ∧ 80 ≤ np.bp ∧ np.bp ≤ 200 :=
  C2_tick_clamps ⟨"PT-1000", "Patient 1", 28, "General", "", none, none, "bg-indigo-500"⟩
    0 0 0 "12:00" (by norm_num) (by norm_num) (by norm_num)
    (by intro v hv; simp at hv)

/-- C10 (implicit): when `vitals` and `history` are absent, a tick is total,
uses the fixed defaults 97 / 70 / 120 as the previous values of the random
walk, and the new reading becomes the sole history entry. -/
theorem C10_tick_defaults (p : VitalNet.Patient) (r1 r2 r3 : ℚ) (t : String)
    (hv : p.vitals = none) (hh : p.history = none) :
    ∃ np, (VitalNet.tickPatient p r1 r2 r3 t).vitals = some np ∧
      (VitalNet.tickPatient p r1 r2 r3 t).history = some [np] ∧
      np.time = t ∧
      np.spo2 = max 60 (min 100 ((97 : ℚ) + (VitalNet.deltaSpo2 r1 : ℚ))) ∧
      np.hr = max 45 (min 140 (VitalNet.jsRound ((70 : ℚ) + (r2 * 6 - 3)))) ∧
      np.bp = max 80 (min 200 (VitalNet.jsRound ((120 : ℚ) + (r3 * 6 - 3)))) := by
  refine ⟨_, VitalNet.tickPatient_vitals_eq p r1 r2 r3 t, ?_, rfl, ?_, ?_, ?_⟩
  · simp [VitalNet.tickPatient, hv, hh]
  · simp [hv]
  · simp [hv, VitalNet.jsOrDefault]
  · simp [hv, VitalNet.jsOrDefault]

/-- C10 witness: concrete patient with no vitals and no history. -/
theorem C10_tick_defaults_witness :
    ∃ np, (VitalNet.tickPatient
        ⟨"PT-1000", "Patient 1", 28, "General", "", none, none, "bg-indigo-500"⟩
        (1/2) (1/2) (1/2) "12:00").vitals = some np ∧
      (VitalNet.tickPatient
        ⟨"PT-1000", "Patient 1", 28, "General", "", none, none, "bg-indigo-500"⟩
        (1/2) (1/2) (1/2) "12:00").history = some [np] ∧
      np.time = "12:00" ∧
      np.spo2 = max 60 (min 100 ((97 : ℚ) + (VitalNet.deltaSpo2 (1/2) : ℚ))) ∧
      np.hr = max 45 (min 140 (VitalNet.jsRound ((70 : ℚ) + ((1/2) * 6 - 3)))) ∧
      np.bp = max 80 (min 200 (VitalNet.jsRound ((120 : ℚ) + ((1/2) * 6 - 3)))) :=
  C10_tick_defaults ⟨"PT-1000", "Patient 1", 28, "General", "", none, none, "bg-indigo-500"⟩
    (1/2) (1/2) (1/2) "12:00" rfl rfl

namespace VitalNet

/-- A tick's stored history is the previous history (defaulting to `[]`) with
the new reading appended, trimmed to the last 16 entries. -/
theorem tickPatient_history_eq (p : Patient) (r1 r2 r3 : ℚ) (t : String) :
    ∃ np, (tickPatient p r1 r2 r3 t).vitals = some np ∧
      (tickPatient p r1 r2 r3 t).history =
        some ((p.history.getD [] ++ [np]).drop ((p.history.getD [] ++ [np]).length - 16)) :=
  ⟨_, rfl, rfl⟩

/-- Trimming `old ++ [np]` to its last 16 entries drops only from the front
and keeps the appended reading last. -/
theorem trim_concat (old : List Reading) (np : Reading) :
    (old ++ [np]).drop ((old ++ [np]).length - 16) =
      old.drop (old.length + 1 - 16) ++ [np] := by
  rw [List.drop_append_eq_append_drop]
  have h1 : (old ++ [np]).length - 16 = old.length + 1 - 16 := by
    simp
  have h2 : old.length + 1 - 16 - old.length = 0 := by omega
  rw [h1, h2]
  rfl

end VitalNet

/-- C3: seed generation, every tick, and the metadata update preserve the
history invariant — at most 16 entries, FIFO trimming (a tick appends the new
reading and keeps only the last 16, dropping oldest entries first), and
`vitals` equal to the last element of `history`. -/
theorem C3_history_invariant :
    (∀ i rand times, ∃ l, (VitalNet.seedPatient i rand times).history = some l ∧
        l.length ≤ 16 ∧ (VitalNet.seedPatient i rand times).vitals = l.getLast?) ∧
    (∀ (p : VitalNet.Patient) (r1 r2 r3 : ℚ) (t : String), ∃ np l,
        (VitalNet.tickPatient p r1 r2 r3 t).vitals = some np ∧
        (VitalNet.tickPatient p r1 r2 r3 t).history = some l ∧
        l = (p.history.getD [] ++ [np]).drop ((p.history.getD [] ++ [np]).length - 16) ∧
        l.length ≤ 16 ∧ l.getLast? = some np ∧
        ((p.history.getD []).length + 1 ≤ 16 → l = p.history.getD [] ++ [np])) ∧
    (∀ ps pid patch (p : VitalNet.Patient), p ∈ VitalNet.updateMeta ps pid patch →
        ∃ q ∈ ps, p.history = q.history ∧ p.vitals = q.vitals) := by
  refine ⟨?_, ?_, ?_⟩
  · intro i rand times
    refine ⟨_, rfl, ?_, rfl⟩
    simp [List.length_map, List.length_range]
  · intro p r1 r2 r3 t
    obtain ⟨np, hv, hh⟩ := VitalNet.tickPatient_history_eq p r1 r2 r3 t
    refine ⟨np, _, hv, hh, rfl, ?_, ?_, ?_⟩
    · simp only [List.length_drop, List.length_append, List.length_cons, List.length_nil]
      omega
    · rw [VitalNet.trim_concat]
      exact List.getLast?_concat _
    · intro hlen
      have : (p.history.getD [] ++ [np]).length - 16 = 0 := by
        simp only [List.length_append, List.length_cons, List.length_nil]
        omega
      rw [this, List.drop_zero]
  · intro ps pid patch p hp
    rw [VitalNet.updateMeta, List.mem_map] at hp
    obtain ⟨q, hq, hfq⟩ := hp
    refine ⟨q, hq, ?_⟩
    by_cases hid : q.id = pid
    · simp only [hid, if_pos rfl] at hfq
      subst hfq
      exact ⟨rfl, rfl⟩
    · simp only [if_neg hid] at hfq
      subst hfq
      exact ⟨rfl, rfl⟩

/-- C3 witness: the three parts at concrete inputs (the metadata-update part's
membership hypothesis discharged on a one-patient collection). -/
theorem C3_history_invariant_witness :
    (∃ l, (VitalNet.seedPatient 0 (fun _ => (0, 0, 0)) (fun _ => "t")).history = some l ∧
      l.length ≤ 16 ∧
      (VitalNet.seedPatient 0 (fun _ => (0, 0, 0)) (fun _ => "t")).vitals = l.getLast?) ∧
    (∃ q ∈ [(⟨"PT-1000", "Patient 1", 28, "General", "", none, none, "x"⟩ : VitalNet.Patient)],
      (VitalNet.applyPatch ⟨"PT-1000", "Patient 1", 28, "General", "", none, none, "x"⟩
        ⟨some "n", some "ICU"⟩).history = q.history ∧
      (VitalNet.applyPatch ⟨"PT-1000", "Patient 1", 28, "General", "", none, none, "x"⟩
        ⟨some "n", some "ICU"⟩).vitals = q.vitals) := by
  constructor
  · exact C3_history_invariant.1 0 (fun _ => (0, 0, 0)) (fun _ => "t")
  · exact C3_history_invariant.2.2
      [⟨"PT-1000", "Patient 1", 28, "General", "", none, none, "x"⟩] "PT-1000"
      ⟨some "n", some "ICU"⟩ _ (by simp [VitalNet.updateMeta, VitalNet.applyPatch])

namespace VitalNet

theorem localeCmp_le_iff (s t : String) : localeCmp s t ≤ 0 ↔ s ≤ t := by
  unfold localeCmp
  rcases lt_trichotomy s t with h | h | h
  · rw [if_pos h]
    simp [le_of_lt h]
  · subst h
    rw [if_neg (lt_irrefl s), if_neg (lt_irrefl s)]
    simp
  · rw [if_neg (not_lt_of_gt h), if_pos h]
    simp [not_le_of_gt h]

theorem localeCmp_eq_zero_iff (s t : String) : localeCmp s t = 0 ↔ s = t := by
  unfold localeCmp
  rcases lt_trichotomy s t with h | h | h
  · rw [if_pos h]
    simp [ne_of_lt h]
  · subst h
    rw [if_neg (lt_irrefl s), if_neg (lt_irrefl s)]
    simp
  · rw [if_neg (not_lt_of_gt h), if_pos h]
    simp [(ne_of_lt h).symm]

/-- The comparator's `≤` order: strictly worse severity first, ties broken by
ascending id. -/
theorem patientLe_iff (a b : Patient) :
    patientLe a b ↔
      (severityScore (currentSpo2 b) < severityScore (currentSpo2 a) ∨
        (severityScore (currentSpo2 a) = severityScore (currentSpo2 b) ∧ a.id ≤ b.id)) := by
  unfold patientLe patientCmp
  by_cases hd : (severityScore (currentSpo2 b) : ℤ) - (severityScore (currentSpo2 a) : ℤ) = 0
  · rw [if_pos hd, localeCmp_le_iff]
    have hAB : severityScore (currentSpo2 a) = severityScore (currentSpo2 b) := by omega
    constructor
    · intro h
      exact Or.inr ⟨hAB, h⟩
    · rintro (h | ⟨-, h⟩)
      · omega
      · exact h
  · rw [if_neg hd]
    constructor
    · intro h
      left
      omega
    · rintro (h | ⟨hAB, -⟩)
      · omega
      · omega

theorem patientLe_total (a b : Patient) : patientLe a b ∨ patientLe b a := by
  rw [patientLe_iff, patientLe_iff]
  rcases Nat.lt_trichotomy (severityScore (currentSpo2 a)) (severityScore (currentSpo2 b)) with h | h | h
  · right
    left
    exact h
  · rcases le_total a.id b.id with hid | hid
    · exact Or.inl (Or.inr ⟨h, hid⟩)
    · exact Or.inr (Or.inr ⟨h.symm, hid⟩)
  · left
    left
    exact h

theorem patientLe_trans (a b c : Patient) :
    patientLe a b → patientLe b c → patientLe a c := by
  rw [patientLe_iff, patientLe_iff, patientLe_iff]
  rintro (h1 | ⟨h1, h1'⟩) (h2 | ⟨h2, h2'⟩)
  · exact Or.inl (by omega)
  · exact Or.inl (by omega)
  · exact Or.inl (by omega)
  · exact Or.inr ⟨by omega, le_trans h1' h2'⟩

/-- Two patients compare equal under the comparator only when they have equal
severity and equal id. -/
theorem patientCmp_eq_zero (a b : Patient) (h : patientCmp a b = 0) :
    severityScore (currentSpo2 a) = severityScore (currentSpo2 b) ∧ a.id = b.id := by
  unfold patientCmp at h
  by_cases hd : (severityScore (currentSpo2 b) : ℤ) - (severityScore (currentSpo2 a) : ℤ) = 0
  · rw [if_pos hd, localeCmp_eq_zero_iff] at h
    exact ⟨by omega, h⟩
  · rw [if_neg hd] at h
    omega

end VitalNet

/-- C4: after any tick, the patient collection is totally ordered by
descending severity of the current reading's oxygen saturation, ties broken
by ascending identifier: every adjacent pair `(a, b)` of the result has
`severity(a) ≥ severity(b)` and, when severities are equal, `a.id ≤ b.id`
lexicographically; and no two patients compare equal under the comparator
unless their severities and identifiers coincide. -/
theorem C4_sorted_by_severity (prev : List VitalNet.Patient) (rand : ℕ → ℚ × ℚ × ℚ) (t : String) :
    List.Chain'
      (fun a b =>
        VitalNet.severityScore (VitalNet.currentSpo2 b) ≤
            VitalNet.severityScore (VitalNet.currentSpo2 a) ∧
          (VitalNet.severityScore (VitalNet.currentSpo2 a) =
              VitalNet.severityScore (VitalNet.currentSpo2 b) → a.id ≤ b.id))
      (VitalNet.tickAndSort prev rand t) ∧
    (∀ a b : VitalNet.Patient, VitalNet.patientCmp a b = 0 →
      VitalNet.severityScore (VitalNet.currentSpo2 a) =
          VitalNet.severityScore (VitalNet.currentSpo2 b) ∧ a.id = b.id) := by
  constructor
  · haveI : IsTotal VitalNet.Patient VitalNet.patientLe := ⟨VitalNet.patientLe_total⟩
    haveI : IsTrans VitalNet.Patient VitalNet.patientLe :=
      ⟨fun a b c => VitalNet.patientLe_trans a b c⟩
    have hs :=
      List.sorted_insertionSort VitalNet.patientLe (VitalNet.simulateVitalsUpdate prev rand t)
    refine List.Pairwise.chain' (List.Pairwise.imp ?_ hs)
    intro a b hab
    rw [VitalNet.patientLe_iff] at hab
    rcases hab with h | ⟨h1, h2⟩
    · exact ⟨le_of_lt h, fun he => by omega⟩
    · exact ⟨le_of_eq h1.symm, fun _ => h2⟩
  · exact VitalNet.patientCmp_eq_zero

/-- C4 witness: the comparator-equality part at a concrete patient. -/
theorem C4_sorted_by_severity_witness :
    VitalNet.severityScore (VitalNet.currentSpo2
        ⟨"PT-1000", "Patient 1", 28, "General", "", none, none, "x"⟩) =
      VitalNet.severityScore (VitalNet.currentSpo2
        ⟨"PT-1000", "Patient 1", 28, "General", "", none, none, "x"⟩) ∧
    (⟨"PT-1000", "Patient 1", 28, "General", "", none, none, "x"⟩ : VitalNet.Patient).id =
      (⟨"PT-1000", "Patient 1", 28, "General", "", none, none, "x"⟩ : VitalNet.Patient).id :=
  (C4_sorted_by_severity [] (fun _ => (0, 0, 0)) "x").2 _ _ (by
    unfold VitalNet.patientCmp
    rw [if_pos (by ring), VitalNet.localeCmp_eq_zero_iff])

namespace VitalNet

/-- The tick delta `⌊(r - 0.65)·4 + 0.5⌋` is strictly negative exactly for
draws `r < 21/40 = 0.525`. -/
theorem deltaSpo2_neg_iff (r : ℚ) : deltaSpo2 r < 0 ↔ r < 21/40 := by
  unfold deltaSpo2 jsRound
  have harg : (r - 13/20) * 4 + 1/2 = 4 * r - 21/10 := by ring
  rw [harg]
  constructor
  · intro h
    have hx : (4 * r - 21/10 : ℚ) < ((0 : ℤ) : ℚ) := Int.floor_lt.mp h
    push_cast at hx
    linarith
  · intro h
    refine Int.floor_lt.mpr ?_
    push_cast
    linarith

end VitalNet

/-- C5 counterexample: the claim that the tick delta is strictly negative with
probability ≈ 0.65 is false.  `deltaSpo2 r = ⌊4r - 2.1⌋` is negative exactly
for `r < 21/40`: on the uniform 40-point grid `r = k/40`, `k < 40`, exactly 21
of 40 draws (52.5%) are negative, and at the concrete draw `r = 0.55 < 0.65`
the delta is 0, not negative; `21/40` is well below `0.65` (even below 3/5). -/
theorem C5_counterexample :
    ((Finset.range 40).filter fun k : ℕ => VitalNet.deltaSpo2 ((k : ℚ)/40) < 0).card = 21 ∧
    VitalNet.deltaSpo2 (11/20) = 0 ∧ ¬ ((3/5 : ℚ) ≤ 21/40) := by
  refine ⟨?_, ?_, by norm_num⟩
  · have hcong :
        ((Finset.range 40).filter fun k : ℕ => VitalNet.deltaSpo2 ((k : ℚ)/40) < 0) =
          (Finset.range 40).filter fun k : ℕ => k < 21 := by
      refine Finset.filter_congr ?_
      intro k hk
      rw [VitalNet.deltaSpo2_neg_iff]
      constructor
      · intro h
        have hq : (k : ℚ) < 21 := by linarith
        exact_mod_cast hq
      · intro h
        have hq : (k : ℚ) < 21 := by exact_mod_cast h
        linarith
    rw [hcong]
    decide
  · unfold VitalNet.deltaSpo2 VitalNet.jsRound
    rw [Int.floor_eq_iff]
    constructor <;> norm_num

/-- C5 (amended): the per-tick oxygen delta is a signed integer in `[-3, 1]`
drawn from a shifted uniform distribution biased toward decrease, and with the
random source uniform on `[0,1)` the delta is strictly negative exactly for
draws `r < 21/40` — i.e. with probability 21/40 = 52.5%, not ≈ 65%. -/
theorem C5_delta_distribution (r : ℚ) (h0 : 0 ≤ r) (h1 : r < 1) :
    (VitalNet.deltaSpo2 r < 0 ↔ r < 21/40) ∧
    -3 ≤ VitalNet.deltaSpo2 r ∧ VitalNet.deltaSpo2 r ≤ 1 := by
  refine ⟨VitalNet.deltaSpo2_neg_iff r, ?_, ?_⟩
  · unfold VitalNet.deltaSpo2 VitalNet.jsRound
    refine Int.le_floor.mpr ?_
    push_cast
    linarith
  · unfold VitalNet.deltaSpo2 VitalNet.jsRound
    have hlt : ⌊(r - 13/20) * 4 + 1/2⌋ < 2 := by
      refine Int.floor_lt.mpr ?_
      push_cast
      linarith
    omega

/-- C5 witness: the amended distribution facts at the concrete draw 1/2. -/
theorem C5_delta_distribution_witness :
    (VitalNet.deltaSpo2 (1/2) < 0 ↔ (1/2 : ℚ) < 21/40) ∧
    -3 ≤ VitalNet.deltaSpo2 (1/2) ∧ VitalNet.deltaSpo2 (1/2) ≤ 1 :=
  C5_delta_distribution (1/2) (by norm_num) (by norm_num)

/-- C9 counterexample: a seed reading's oxygen saturation need not be an
integer.  At patient base 95 with draw `r1 = 1/8` (an exact binary fraction,
hence an attainable `Math.random()` value) the seed SpO₂ is 93.5. -/
theorem C9_counterexample :
    (VitalNet.seedReading 95 "09:00" (1/8) (1/2) (1/2)).spo2 = 187/2 ∧
    ¬ ∃ z : ℤ, (VitalNet.seedReading 95 "09:00" (1/8) (1/2) (1/2)).spo2 = (z : ℚ) := by
  have hval : (VitalNet.seedReading 95 "09:00" (1/8) (1/2) (1/2)).spo2 = 187/2 := by
    norm_num [VitalNet.seedReading]
  refine ⟨hval, ?_⟩
  rintro ⟨z, hz⟩
  rw [hval] at hz
  have h2 : (187 : ℚ) = 2 * (z : ℚ) := by
    field_simp at hz
    linarith
  have h3 : (187 : ℤ) = 2 * z := by exact_mod_cast h2
  omega

/-- C9 (amended): a seed reading's oxygen saturation is a rational in
`[80,100]` (the unrounded `base + (r·4 − 2)`, clamped) — not necessarily an
integer; a tick's oxygen saturation adds an integer delta and clamps to
`[60,100]`, so it is an integer in `[60,100]` whenever the previous reading's
oxygen saturation was an integer (and in particular when vitals were absent,
where the integer default 97 is used). -/
theorem C9_oxygen_values :
    (∀ (base : ℤ) (t : String) (r1 r2 r3 : ℚ),
        80 ≤ (VitalNet.seedReading base t r1 r2 r3).spo2 ∧
        (VitalNet.seedReading base t r1 r2 r3).spo2 ≤ 100) ∧
    (∀ (p : VitalNet.Patient) (r1 r2 r3 : ℚ) (t : String),
        (∀ v, p.vitals = some v → ∃ z : ℤ, v.spo2 = (z : ℚ)) →
        ∃ z : ℤ,
          ((VitalNet.tickPatient p r1 r2 r3 t).vitals.map VitalNet.Reading.spo2) = some (z : ℚ) ∧
          60 ≤ z ∧ z ≤ 100) := by
  constructor
  · intro base t r1 r2 r3
    exact VitalNet.clamp_bounds 80 100 _ (by norm_num)
  · intro p r1 r2 r3 t hint
    obtain ⟨z0, hz0⟩ : ∃ z0 : ℤ, (p.vitals.map VitalNet.Reading.spo2).getD 97 = (z0 : ℚ) := by
      cases hv : p.vitals with
      | none => exact ⟨97, by simp [hv]⟩
      | some v =>
          obtain ⟨z, hz⟩ := hint v hv
          exact ⟨z, by simp [hv, hz]⟩
    refine ⟨max 60 (min 100 (z0 + VitalNet.deltaSpo2 r1)), ?_, ?_, ?_⟩
    · rw [VitalNet.tickPatient_vitals_eq]
      simp only [Option.map_some']
      congr 1
      rw [hz0]
      push_cast
      rfl
    · exact (VitalNet.clamp_bounds 60 100 _ (by norm_num)).1
    · exact (VitalNet.clamp_bounds 60 100 _ (by norm_num)).2

/-- C9 witness: the tick part applied to a concrete patient without vitals. -/
theorem C9_oxygen_values_witness :
    ∃ z : ℤ,
      ((VitalNet.tickPatient ⟨"PT-1000", "Patient 1", 28, "General", "", none, none, "x"⟩
          0 0 0 "t").vitals.map VitalNet.Reading.spo2) = some (z : ℚ) ∧
      60 ≤ z ∧ z ≤ 100 :=
  C9_oxygen_values.2 ⟨"PT-1000", "Patient 1", 28, "General", "", none, none, "x"⟩
    0 0 0 "t" (by intro v hv; simp at hv)

/-- C6: startup hydration lets only the metadata fields (notes, ward) of the
stored per-patient object override the seed values; identifier, name, age,
history, vitals and visual category always come from the freshly generated
seed — in particular, the identifier is never changed by hydration. -/
theorem C6_hydration_overrides_only_meta
    (seeded : List VitalNet.Patient) (meta : String → Option VitalNet.MetaPatch)
    (p : VitalNet.Patient) (hp : p ∈ VitalNet.hydrate seeded meta) :
    ∃ q ∈ seeded, p.id = q.id ∧ p.name = q.name ∧ p.age = q.age ∧
      p.history = q.history ∧ p.vitals = q.vitals ∧ p.avatarColor = q.avatarColor ∧
      (match meta q.id with
       | none => p.notes = q.notes ∧ p.ward = q.ward
       | some m => p.notes = m.notes.getD q.notes ∧ p.ward = m.ward.getD q.ward) := by
  rw [VitalNet.hydrate, List.mem_map] at hp
  obtain ⟨q, hq, hfq⟩ := hp
  refine ⟨q, hq, ?_⟩
  cases hm : meta q.id with
  | none =>
      rw [hm] at hfq
      subst hfq
      exact ⟨rfl, rfl, rfl, rfl, rfl, rfl, rfl, rfl⟩
  | some m =>
      rw [hm] at hfq
      subst hfq
      exact ⟨rfl, rfl, rfl, rfl, rfl, rfl, rfl, rfl⟩

/-- C6 witness: hydration of a one-patient seed with a full metadata record
keeps the seed identifier. -/
theorem C6_hydration_overrides_only_meta_witness :
    ∃ q ∈ [(⟨"PT-1000", "Patient 1", 28, "General", "", none, none, "x"⟩ : VitalNet.Patient)],
      (VitalNet.applyPatch ⟨"PT-1000", "Patient 1", 28, "General", "", none, none, "x"⟩
        ⟨some "note", some "ICU"⟩).id = q.id := by
  obtain ⟨q, hq, h1, -⟩ :=
    C6_hydration_overrides_only_meta
      [⟨"PT-1000", "Patient 1", 28, "General", "", none, none, "x"⟩]
      (fun _ => some ⟨some "note", some "ICU"⟩)
      (VitalNet.applyPatch ⟨"PT-1000", "Patient 1", 28, "General", "", none, none, "x"⟩
        ⟨some "note", some "ICU"⟩)
      (by simp [VitalNet.hydrate])
  exact ⟨q, hq, h1⟩

/-- C7 counterexample: a stored value that parses but is not of the expected
shape need not fall back to the seed defaults.  The value
`{"PT-1000": {"age": 1}}` parses without throwing, its entry at `PT-1000` is
not a `{notes, ward}` record, and the spread at `App.jsx` line 75 overrides
the seed's age (28 → 1) — so startup differs from the seed. -/
theorem C7_counterexample :
    (VitalNet.startupPatients
        [VitalNet.seedPatient 0 (fun _ => (0, 0, 0)) (fun _ => "t")]
        (.parsed fun pid =>
          if pid = "PT-1000" then some { age := some 1 } else none)).map
      VitalNet.Patient.age = [1] ∧
    [VitalNet.seedPatient 0 (fun _ => (0, 0, 0)) (fun _ => "t")].map
      VitalNet.Patient.age = [28] ∧
    VitalNet.startupPatients
        [VitalNet.seedPatient 0 (fun _ => (0, 0, 0)) (fun _ => "t")]
        (.parsed fun pid =>
          if pid = "PT-1000" then some { age := some 1 } else none) ≠
      [VitalNet.seedPatient 0 (fun _ => (0, 0, 0)) (fun _ => "t")] := by
  have h1 : (VitalNet.startupPatients
      [VitalNet.seedPatient 0 (fun _ => (0, 0, 0)) (fun _ => "t")]
      (.parsed fun pid =>
        if pid = "PT-1000" then some { age := some 1 } else none)).map
      VitalNet.Patient.age = [1] := rfl
  have h2 : [VitalNet.seedPatient 0 (fun _ => (0, 0, 0)) (fun _ => "t")].map
      VitalNet.Patient.age = [28] := rfl
  refine ⟨h1, h2, fun h => ?_⟩
  rw [h, h2] at h1
  exact absurd h1 (by decide)

/-- C7 (amended): startup falls back to exactly the seed defaults, with no
error raised, when the stored value is absent or `JSON.parse` throws, and
likewise when the value parses but yields no object at any seed patient's id
(a non-object value, or an object without matching id keys); a parsed object
with a matching id key, however, is merged onto that patient even when it is
not of the expected `{notes, ward}` shape. -/
theorem C7_fallback_on_parse_failure (seeded : List VitalNet.Patient) :
    VitalNet.startupPatients seeded .absent = seeded ∧
    VitalNet.startupPatients seeded .malformed = seeded ∧
    (∀ m : String → Option VitalNet.JsObjPatch,
      (∀ p ∈ seeded, m p.id = none) →
      VitalNet.startupPatients seeded (.parsed m) = seeded) := by
  refine ⟨?_, rfl, ?_⟩
  · simp [VitalNet.startupPatients, VitalNet.hydrateJs]
  · intro m hm
    show VitalNet.hydrateJs seeded m = seeded
    unfold VitalNet.hydrateJs
    calc seeded.map (fun p =>
            match m p.id with
            | none => p
            | some j => VitalNet.applyJsPatch p j)
        = seeded.map id := List.map_congr_left fun p hp => by rw [hm p hp]; rfl
      _ = seeded := List.map_id seeded

/-- C7 witness: the parsed-but-no-matching-lookup part at a concrete seed. -/
theorem C7_fallback_on_parse_failure_witness :
    VitalNet.startupPatients
      [(⟨"PT-1000", "Patient 1", 28, "General", "", none, none, "x"⟩ : VitalNet.Patient)]
      (.parsed fun _ => none) =
      [(⟨"PT-1000", "Patient 1", 28, "General", "", none, none, "x"⟩ : VitalNet.Patient)] :=
  (C7_fallback_on_parse_failure
    [⟨"PT-1000", "Patient 1", 28, "General", "", none, none, "x"⟩]).2.2
    (fun _ => none) (fun p _ => rfl)

/-- Every patient of `updateMeta ps pid patch` whose id is `pid` carries
exactly the patched notes and ward. -/
theorem updateMeta_id_fields (ps : List VitalNet.Patient) (pid n w : String)
    (y : VitalNet.Patient) (hy : y ∈ VitalNet.updateMeta ps pid ⟨some n, some w⟩)
    (hyid : y.id = pid) : y.notes = n ∧ y.ward = w := by
  rw [VitalNet.updateMeta, List.mem_map] at hy
  obtain ⟨q, hq, hfq⟩ := hy
  by_cases hid : q.id = pid
  · rw [if_pos hid] at hfq
    subst hfq
    exact ⟨rfl, rfl⟩
  · rw [if_neg hid] at hfq
    subst hfq
    exact absurd hyid hid

/-- After updating a patient's notes and ward, the serialized metadata mapping
holds exactly those values at that id. -/
theorem persistMeta_updateMeta (ps : List VitalNet.Patient) (pid n w : String)
    (hex : ∃ p ∈ ps, p.id = pid) :
    VitalNet.persistMeta (VitalNet.updateMeta ps pid ⟨some n, some w⟩) pid =
      some ⟨some n, some w⟩ := by
  obtain ⟨p, hp, hpid⟩ := hex
  have hx : VitalNet.applyPatch p ⟨some n, some w⟩ ∈
      VitalNet.updateMeta ps pid ⟨some n, some w⟩ := by
    rw [VitalNet.updateMeta, List.mem_map]
    exact ⟨p, hp, by rw [if_pos hpid]⟩
  have hxid : (VitalNet.applyPatch p ⟨some n, some w⟩).id = pid := hpid
  have hxf : VitalNet.applyPatch p ⟨some n, some w⟩ ∈
      (VitalNet.updateMeta ps pid ⟨some n, some w⟩).filter fun q => q.id == pid := by
    rw [List.mem_filter]
    exact ⟨hx, by simp [hxid]⟩
  rw [VitalNet.persistMeta]
  cases hF : ((VitalNet.updateMeta ps pid ⟨some n, some w⟩).filter fun q => q.id == pid).getLast? with
  | none =>
      rw [List.getLast?_eq_none_iff] at hF
      rw [hF] at hxf
      exact absurd hxf (List.not_mem_nil _)
  | some y =>
      obtain ⟨hne, hyeq⟩ := List.mem_getLast?_eq_getLast (Option.mem_def.mpr hF)
      have hymem : y ∈ (VitalNet.updateMeta ps pid ⟨some n, some w⟩).filter fun q => q.id == pid :=
        hyeq ▸ List.getLast_mem hne
      rw [List.mem_filter] at hymem
      obtain ⟨hymem', hyid⟩ := hymem
      have hyid' : y.id = pid := by simpa using hyid
      obtain ⟨hn, hw⟩ := updateMeta_id_fields ps pid n w y hymem' hyid'
      simp [hn, hw]

/-- C8: round-trip of metadata persistence — after updating a patient's notes
and ward, serializing the full metadata mapping and hydrating a fresh seed
from the stored record yields the same notes and ward for that patient. -/
theorem C8_meta_round_trip (ps : List VitalNet.Patient) (pid n w : String)
    (seed2 : List VitalNet.Patient)
    (hex : ∃ p ∈ ps, p.id = pid)
    (q : VitalNet.Patient)
    (hq : q ∈ VitalNet.hydrate seed2
      (VitalNet.persistMeta (VitalNet.updateMeta ps pid ⟨some n, some w⟩)))
    (hqid : q.id = pid) :
    q.notes = n ∧ q.ward = w := by
  rw [VitalNet.hydrate, List.mem_map] at hq
  obtain ⟨p2, hp2, hfp2⟩ := hq
  have hid2 : q.id = p2.id := by
    cases hm : VitalNet.persistMeta (VitalNet.updateMeta ps pid ⟨some n, some w⟩) p2.id with
    | none =>
        rw [hm] at hfp2
        subst hfp2
        rfl
    | some m =>
        rw [hm] at hfp2
        subst hfp2
        rfl
  have hp2id : p2.id = pid := by rw [← hid2, hqid]
  have hmeta := persistMeta_updateMeta ps pid n w hex
  rw [hp2id, hmeta] at hfp2
  subst hfp2
  exact ⟨rfl, rfl⟩

/-- C8 witness: the round trip at a concrete one-patient collection. -/
theorem C8_meta_round_trip_witness :
    (VitalNet.applyPatch ⟨"PT-1000", "Patient 1", 28, "General", "", none, none, "x"⟩
      ⟨some "note", some "ICU"⟩).notes = "note" ∧
    (VitalNet.applyPatch ⟨"PT-1000", "Patient 1", 28, "General", "", none, none, "x"⟩
      ⟨some "note", some "ICU"⟩).ward = "ICU" := by
  refine C8_meta_round_trip
    [⟨"PT-1000", "Patient 1", 28, "General", "", none, none, "x"⟩] "PT-1000" "note" "ICU"
    [⟨"PT-1000", "Patient 1", 28, "General", "", none, none, "x"⟩]
    ⟨⟨"PT-1000", "Patient 1", 28, "General", "", none, none, "x"⟩, by simp, rfl⟩
    _ ?_ rfl
  simp [VitalNet.hydrate, VitalNet.persistMeta, VitalNet.updateMeta, VitalNet.applyPatch]
